import Mathlib

/-!
# Verification of the tracing instrumentation layer

A shallow embedding of the tracing decorator for a controller-runtime
client (`util/tracing/runtime_client.go`), the span-context stamping of
object annotations (`AddTraceAnnotation`), and the `move` command entry
point (`cmd/clusterctl/cmd/move.go`), together with proofs of the
behavioural properties stated in the specification.

The tracer backend is an opaque external capability: a span is modelled
by the sequence of tracer calls the decorator issues (`TraceAction`),
which can be interpreted into a `Span` record.  Delegate clients are
modelled as functions supplied to the decorator, so every delegate
outcome is covered by quantification.
-/

namespace ClusterApiTracing

/-! ## Span-context codec

`GenerateEmbeddableSpanContext` and its decoding inverse live outside
this repository fragment; they are modelled from the spec: a trace
context is a trace identifier, a span identifier and a sampling
decision, serialized to a single string that round-trips losslessly. -/

/-- Modelled from the spec: the minimal state needed to continue a trace
from another process — trace identifier, span identifier, sampling
decision.  The concrete Go type is not under `src/`. -/
structure TraceContext where
  traceID : String
  spanID : String
  sampled : Bool
  deriving Repr, DecidableEq

/-- Split a character list at every occurrence of `sep` (the separator is
dropped; `n` separators yield `n + 1` chunks). -/
def splitOnSep (sep : Char) : List Char → List (List Char)
  | [] => [[]]
  | c :: cs =>
    if c = sep then [] :: splitOnSep sep cs
    else
      match splitOnSep sep cs with
      | [] => [[c]]
      | p :: ps => (c :: p) :: ps

/-- Modelled from the spec: serialize a trace context to a single string
(`encode`), colon-separating the three fields. -/
def TraceContext.encode (c : TraceContext) : String :=
  String.mk (c.traceID.data ++ ':' :: c.spanID.data ++
    [':', if c.sampled then '1' else '0'])

/-- Modelled from the spec: parse a trace context back from its string
form (`decode`), failing on malformed input. -/
def TraceContext.decode (s : String) : Option TraceContext :=
  match splitOnSep ':' s.data with
  | [t, sid, f] =>
    if f = ['1'] then some ⟨String.mk t, String.mk sid, true⟩
    else if f = ['0'] then some ⟨String.mk t, String.mk sid, false⟩
    else none
  | _ => none

/-- A context is valid for encoding when neither identifier contains the
separator character. -/
def TraceContext.wellFormed (c : TraceContext) : Prop :=
  ':' ∉ c.traceID.data ∧ ':' ∉ c.spanID.data

instance (c : TraceContext) : Decidable c.wellFormed := by
  unfold TraceContext.wellFormed
  infer_instance

/-! ## Object annotations and trace stamping -/

/-- Annotation mapping: free-form string key/value metadata.  Go's
`map[string]string` is modelled as an association list with
overwrite-on-assign semantics. -/
abbrev Annotations := List (String × String)

/-- Map assignment `m[k] = v`: overwrite the binding for `k`, or append a
fresh one. -/
def annotSet (m : Annotations) (k v : String) : Annotations :=
  match m with
  | [] => [(k, v)]
  | p :: rest => if p.1 = k then (k, v) :: rest else p :: annotSet rest k v

/-- Map lookup `m[k]`. -/
def annotGet (m : Annotations) (k : String) : Option String :=
  (m.find? (fun p => p.1 = k)).map Prod.snd

/-- An unstructured domain object, viewed through its annotation mapping
(`GetAnnotations` returns `nil` when the mapping is uninitialized). -/
structure Unstructured where
  annotations : Option Annotations
  deriving Repr, DecidableEq

def Unstructured.GetAnnotations (o : Unstructured) : Option Annotations :=
  o.annotations

def Unstructured.SetAnnotations (o : Unstructured) (a : Annotations) :
    Unstructured :=
  { o with annotations := some a }

/-- Observe one annotation value of an object. -/
def Unstructured.annotLookup (o : Unstructured) (k : String) : Option String :=
  match o.annotations with
  | none => none
  | some a => annotGet a k

/-- Modelled from the spec: the single reserved annotation key holding
the encoded trace context.  Its concrete value is declared outside this
fragment. -/
def TraceAnnotationKey : String := "trace.cluster.x-k8s.io/context"

/-- A span as seen by the codec: it may or may not carry a serializable
trace context. -/
structure ActiveSpan where
  ctx : Option TraceContext
  deriving Repr, DecidableEq

/-- Modelled from the spec: `encode(span) → string`, failing with an
encode error when the active tracer cannot serialize the span's context.
The Go implementation is outside this fragment. -/
def GenerateEmbeddableSpanContext (span : ActiveSpan) : Except String String :=
  match span.ctx with
  | some c => .ok c.encode
  | none => .error "cannot serialize span context"

/-- `AddTraceAnnotation` from the source: encode the span's context once,
then stamp the reserved key onto every object.  The in-place mutation of
the Go code is modelled by returning the updated sequence. -/
def AddTraceAnnotation (objs : List Unstructured) (span : ActiveSpan) :
    Except String (List Unstructured) :=
  match GenerateEmbeddableSpanContext span with
  | .error err => .error err
  | .ok spanContext =>
    .ok (objs.map fun o =>
      let a := match o.GetAnnotations with
               | none => ([] : Annotations)
               | some a => a
      o.SetAnnotations (annotSet a TraceAnnotationKey spanContext))

/-! ## The instrumented store client -/

variable {ε : Type}

/-- `schema.GroupVersionKind` from apimachinery. -/
structure GroupVersionKind where
  group : String
  version : String
  kind : String
  deriving Repr, DecidableEq

/-- `gvk.Empty()`. -/
def GroupVersionKind.Empty (gvk : GroupVersionKind) : Bool :=
  gvk.group = "" && gvk.version = "" && gvk.kind = ""

/-- `gvk.String()`. -/
def GroupVersionKind.toStr (gvk : GroupVersionKind) : String :=
  gvk.group ++ "/" ++ gvk.version ++ ", Kind=" ++ gvk.kind

/-- `client.ObjectKey` (a namespaced name). -/
structure ObjectKey where
  nspace : String
  name : String
  deriving Repr, DecidableEq

/-- `key.String()` — namespace, separator, name. -/
def ObjectKey.toStr (k : ObjectKey) : String := k.nspace ++ "/" ++ k.name

/-- A `runtime.Object` as the decorator observes it: its declared
group/version/kind and, when a meta accessor is available, its
namespace/name pair. -/
structure Obj where
  kind : GroupVersionKind
  objMeta : Option (String × String)
  deriving Repr, DecidableEq

/-- One call the decorator issues against the opaque tracer capability. -/
inductive TraceAction (ε : Type) where
  | startSpan (opName : String) (tags : List (String × String))
  | setTag (key value : String)
  | setErrorFlag
  | logErrorField (e : ε)
  | logPatchField (data : String)
  | finishSpan
  deriving Repr, DecidableEq

/-- A structured log entry recorded on a span. -/
inductive SpanLogEntry (ε : Type) where
  | errorField (e : ε)
  | patchField (data : String)
  deriving Repr, DecidableEq

/-- The observable state of a span after interpreting the tracer calls. -/
structure Span (ε : Type) where
  opName : String
  tags : List (String × String)
  errorFlag : Bool
  logs : List (SpanLogEntry ε)
  finished : Bool
  deriving Repr, DecidableEq

/-- Interpret one tracer call against a span. -/
def applyAction : Span ε → TraceAction ε → Span ε
  | s, .startSpan _ _ => s
  | s, .setTag k v => { s with tags := s.tags ++ [(k, v)] }
  | s, .setErrorFlag => { s with errorFlag := true }
  | s, .logErrorField e => { s with logs := s.logs ++ [.errorField e] }
  | s, .logPatchField d => { s with logs := s.logs ++ [.patchField d] }
  | s, .finishSpan => { s with finished := true }

/-- Interpret a whole operation's tracer calls into the resulting span. -/
def spanOf : List (TraceAction ε) → Span ε
  | .startSpan n tg :: rest => rest.foldl applyAction ⟨n, tg, false, [], false⟩
  | _ => ⟨"", [], false, [], false⟩

/-- Whether the span carries a tag with the given key. -/
def Span.hasTagKey (sp : Span ε) (k : String) : Bool :=
  sp.tags.any fun t => t.1 = k

/-- `setObjectTags` from the source: tag the declared kind when
non-empty, and the namespace/name key when a meta accessor succeeds. -/
def setObjectTags (obj : Obj) : List (TraceAction ε) :=
  (if obj.kind.Empty then [] else [.setTag "objectKind" obj.kind.toStr]) ++
    (match obj.objMeta with
     | some nn => [.setTag "objectKey" (nn.1 ++ "/" ++ nn.2)]
     | none => [])

/-- The outcome of `scheme.ObjectKinds(obj)`: candidate kinds, the
`unversioned` flag and an optional error.  The decorator ignores the
last two components. -/
abbrev KindResolver := Obj → List GroupVersionKind × Bool × Option String

/-- `tracingClient.setBlankObjectTags` from the source: when a scheme is
present, tag every candidate kind the registry yields. -/
def setBlankObjectTags (scheme : Option KindResolver) (obj : Obj) :
    List (TraceAction ε) :=
  match scheme with
  | none => []
  | some objectKinds =>
    ((objectKinds obj).1).map fun gvk => .setTag "objectKind" gvk.toStr

/-- The kinds the registry yields for an object (empty when no scheme is
configured). -/
def registryKinds (scheme : Option KindResolver) (obj : Obj) :
    List GroupVersionKind :=
  match scheme with
  | none => []
  | some objectKinds => (objectKinds obj).1

/-- `traceError` from the source: on a delegate error, set the error flag
and log the error; always hand the delegate's error back unchanged. -/
def traceError (err : Option ε) : Option ε × List (TraceAction ε) :=
  match err with
  | some e => (err, [.setErrorFlag, .logErrorField e])
  | none => (err, [])

/-- A patch specification: `patch.Data(obj)` yields the serialized
payload, or fails (modelled by `none`). -/
abbrev PatchSpec := Obj → Option String

/-- The span log entries produced by the best-effort patch-payload
capture in the source's Patch methods. -/
def patchLogActions (obj : Obj) (patch : PatchSpec) : List (TraceAction ε) :=
  match patch obj with
  | some data => [.logPatchField data]
  | none => []

/-- The wrapped status sub-writer: delegate outcomes for update and
patch.  A delegate returns the (possibly server-filled) object together
with an optional error. -/
structure StatusWriterDelegate (ε : Type) where
  update : Obj → Obj × Option ε
  patch : Obj → PatchSpec → Obj × Option ε

/-- The `tracingClient` decorator: the wrapped client is modelled by one
delegate function per operation, plus the scheme used for blank-object
kind resolution. -/
structure TracingClient (ε : Type) where
  getDelegate : ObjectKey → Obj → Obj × Option ε
  listDelegate : Obj → Obj × Option ε
  createDelegate : Obj → Obj × Option ε
  deleteDelegate : Obj → Obj × Option ε
  updateDelegate : Obj → Obj × Option ε
  patchDelegate : Obj → PatchSpec → Obj × Option ε
  deleteAllOfDelegate : Obj → Obj × Option ε
  statusDelegate : StatusWriterDelegate ε
  scheme : Option KindResolver

/-- `tracingClient.Get`: start a span tagged with the lookup key, tag
registry kinds, delegate, record any error, finish. -/
def TracingClient.get (c : TracingClient ε) (key : ObjectKey) (obj : Obj) :
    (Obj × Option ε) × List (TraceAction ε) :=
  let dres := c.getDelegate key obj
  let te := traceError dres.2
  ((dres.1, te.1),
    .startSpan "k8s.Get" [("objectKey", key.toStr)] ::
      (setBlankObjectTags c.scheme obj ++ te.2 ++ [.finishSpan]))

/-- `tracingClient.List`. -/
def TracingClient.list (c : TracingClient ε) (list : Obj) :
    (Obj × Option ε) × List (TraceAction ε) :=
  let dres := c.listDelegate list
  let te := traceError dres.2
  ((dres.1, te.1),
    .startSpan "k8s.List" [] ::
      (setBlankObjectTags c.scheme list ++ te.2 ++ [.finishSpan]))

/-- `tracingClient.Create`. -/
def TracingClient.create (c : TracingClient ε) (obj : Obj) :
    (Obj × Option ε) × List (TraceAction ε) :=
  let dres := c.createDelegate obj
  let te := traceError dres.2
  ((dres.1, te.1),
    .startSpan "k8s.Create" [] :: (setObjectTags obj ++ te.2 ++ [.finishSpan]))

/-- `tracingClient.Delete`. -/
def TracingClient.delete (c : TracingClient ε) (obj : Obj) :
    (Obj × Option ε) × List (TraceAction ε) :=
  let dres := c.deleteDelegate obj
  let te := traceError dres.2
  ((dres.1, te.1),
    .startSpan "k8s.Delete" [] :: (setObjectTags obj ++ te.2 ++ [.finishSpan]))

/-- `tracingClient.Update`. -/
def TracingClient.update (c : TracingClient ε) (obj : Obj) :
    (Obj × Option ε) × List (TraceAction ε) :=
  let dres := c.updateDelegate obj
  let te := traceError dres.2
  ((dres.1, te.1),
    .startSpan "k8s.Update" [] :: (setObjectTags obj ++ te.2 ++ [.finishSpan]))

/-- `tracingClient.Patch`: also best-effort logs the patch payload. -/
def TracingClient.patch (c : TracingClient ε) (obj : Obj) (patch : PatchSpec) :
    (Obj × Option ε) × List (TraceAction ε) :=
  let dres := c.patchDelegate obj patch
  let te := traceError dres.2
  ((dres.1, te.1),
    .startSpan "k8s.Patch" [] ::
      (setObjectTags obj ++ patchLogActions obj patch ++ te.2 ++ [.finishSpan]))

/-- `tracingClient.DeleteAllOf`. -/
def TracingClient.deleteAllOf (c : TracingClient ε) (obj : Obj) :
    (Obj × Option ε) × List (TraceAction ε) :=
  let dres := c.deleteAllOfDelegate obj
  let te := traceError dres.2
  ((dres.1, te.1),
    .startSpan "k8s.DeleteAllOf" [] ::
      (setBlankObjectTags c.scheme obj ++ te.2 ++ [.finishSpan]))

/-- The `tracingStatusWriter` decorator around the delegate's status
sub-writer. -/
structure TracingStatusWriter (ε : Type) where
  statusWriter : StatusWriterDelegate ε

/-- `tracingClient.Status()` wraps the delegate's status writer. -/
def TracingClient.status (c : TracingClient ε) : TracingStatusWriter ε :=
  ⟨c.statusDelegate⟩

/-- `tracingStatusWriter.Update`. -/
def TracingStatusWriter.update (s : TracingStatusWriter ε) (obj : Obj) :
    (Obj × Option ε) × List (TraceAction ε) :=
  let dres := s.statusWriter.update obj
  let te := traceError dres.2
  ((dres.1, te.1),
    .startSpan "k8s.Status.Update" [] ::
      (setObjectTags obj ++ te.2 ++ [.finishSpan]))

/-- `tracingStatusWriter.Patch`. -/
def TracingStatusWriter.patch (s : TracingStatusWriter ε) (obj : Obj)
    (patch : PatchSpec) : (Obj × Option ε) × List (TraceAction ε) :=
  let dres := s.statusWriter.patch obj patch
  let te := traceError dres.2
  ((dres.1, te.1),
    .startSpan "k8s.Status.Patch" [] ::
      (setObjectTags obj ++ patchLogActions obj patch ++ te.2 ++ [.finishSpan]))

/-- Recognize a span-start tracer call. -/
def isStart : TraceAction ε → Bool
  | .startSpan _ _ => true
  | _ => false

/-- Recognize a span-finish tracer call. -/
def isFinish : TraceAction ε → Bool
  | .finishSpan => true
  | _ => false

/-- The scoped-span protocol for one operation: exactly one span is
started, exactly one is finished, and the finish is the last tracer call
before the operation returns. -/
def spanDiscipline (acts : List (TraceAction ε)) : Prop :=
  acts.countP isStart = 1 ∧ acts.countP isFinish = 1 ∧
    acts.getLast? = some .finishSpan

/-- No tracer call in the list starts or finishes a span (the inner part
of an operation's call sequence). -/
def noSpanCtl (acts : List (TraceAction ε)) : Prop :=
  ∀ a ∈ acts, isStart a = false ∧ isFinish a = false

/-- The tags set by a list of tracer calls, in order. -/
def collectTags : List (TraceAction ε) → List (String × String)
  | [] => []
  | .setTag k v :: rest => (k, v) :: collectTags rest
  | _ :: rest => collectTags rest

/-- Whether some tracer call in the list sets the error flag. -/
def anySetError (acts : List (TraceAction ε)) : Bool :=
  acts.any fun a =>
    match a with
    | .setErrorFlag => true
    | _ => false

/-- A concrete object used to evaluate scenarios: a list-typed container
with no meta accessor. -/
def sampleObj : Obj :=
  ⟨⟨"cluster.x-k8s.io", "v1alpha3", "MachineList"⟩, none⟩

/-- A concrete decorator instance whose delegates all succeed and whose
scheme is absent, used to evaluate scenarios. -/
def sampleClient : TracingClient String where
  getDelegate := fun _ o => (o, none)
  listDelegate := fun o => (o, none)
  createDelegate := fun o => (o, none)
  deleteDelegate := fun o => (o, none)
  updateDelegate := fun o => (o, none)
  patchDelegate := fun o _ => (o, none)
  deleteAllOfDelegate := fun o => (o, none)
  statusDelegate := ⟨fun o => (o, none), fun o _ => (o, none)⟩
  scheme := none

/-- A concrete kind resolver yielding two candidate kinds for every
object, used to evaluate registry-driven tagging. -/
def sampleResolver : KindResolver := fun _ =>
  ([⟨"g1", "v1", "K1"⟩, ⟨"g2", "v2", "K2"⟩], false, none)

/-- The sample decorator with the two-kind resolver installed. -/
def sampleClientWithScheme : TracingClient String :=
  { sampleClient with scheme := some sampleResolver }

/-! ## Client constructors -/

/-- The shape of the client value a constructor returns: a bare
underlying client, the delegating reader/writer composite, or the
tracing decorator layered on an inner client.  `κ` is the underlying
client type, `σ` the cache type, `ρ` the scheme type. -/
inductive ClientShape (κ σ ρ : Type) where
  | base (c : κ)
  | delegatingReader (cacheReader : σ) (clientReader : ClientShape κ σ ρ)
  | delegatingClient (reader writer statusClient : ClientShape κ σ ρ)
  | tracingClient (inner : ClientShape κ σ ρ) (scheme : Option ρ)
  deriving Repr, DecidableEq

/-- `client.Options` as the constructors use it: only the scheme field
is read. -/
structure ClientOptions (ρ : Type) where
  scheme : Option ρ
  deriving Repr, DecidableEq

/-- `NewRuntimeClient` from the source.  The external call
`client.New(config, options)` is modelled by its outcome `clientNew`:
on error, that error is returned with no client; on success the
delegating composite is built and wrapped in the tracing decorator. -/
def NewRuntimeClient {κ σ ρ ε : Type} (cache : σ) (clientNew : Except ε κ)
    (options : ClientOptions ρ) : Except ε (ClientShape κ σ ρ) :=
  match clientNew with
  | .error err => .error err
  | .ok c =>
    .ok (.tracingClient
      (.delegatingClient (.delegatingReader cache (.base c)) (.base c)
        (.base c))
      options.scheme)

/-- `WrapRuntimeClient` from the source: wrap an upstream constructor
with one that layers the tracing decorator over its result, passing any
upstream error through.  `χ` is the rest-config type. -/
def WrapRuntimeClient {κ σ ρ χ ε : Type}
    (upstreamNew : σ → χ → ClientOptions ρ → Except ε (ClientShape κ σ ρ)) :
    σ → χ → ClientOptions ρ → Except ε (ClientShape κ σ ρ) :=
  fun cache config options =>
    match upstreamNew cache config options with
    | .error err => .error err
    | .ok delegating => .ok (.tracingClient delegating options.scheme)

/-! ## The move command entry point -/

/-- The flags of `clusterctl move`. -/
structure MoveOptions where
  fromKubeconfig : String
  nspace : String
  toKubeconfig : String
  deriving Repr, DecidableEq

/-- Which external collaborators `runMove` invokes. -/
inductive MoveEvent where
  | constructClient
  | invokeMove
  deriving Repr, DecidableEq

/-- The missing-destination error message from the source. -/
def moveMissingDestinationMsg : String :=
  "please specify a target cluster using the --to-kubeconfig flag"

/-- `runMove` from the source.  `clientNew` models the outcome of the
external `client.New(cfgFile)` call and `moveFn` the external
`c.Move(...)` call; the returned event list records which external
collaborators were invoked. -/
def runMove {γ : Type} (mo : MoveOptions) (clientNew : Except String γ)
    (moveFn : γ → Option String) : Option String × List MoveEvent :=
  if mo.toKubeconfig = "" then (some moveMissingDestinationMsg, [])
  else
    match clientNew with
    | .error e => (some e, [.constructClient])
    | .ok c =>
      match moveFn c with
      | some e => (some e, [.constructClient, .invokeMove])
      | none => (none, [.constructClient, .invokeMove])

/-! ## Helper lemmas -/

theorem annotGet_annotSet_self (m : Annotations) (k v : String) :
    annotGet (annotSet m k v) k = some v := by
  induction m with
  | nil => simp [annotSet, annotGet]
  | cons p rest ih =>
    by_cases h : p.1 = k
    · simp [annotSet, annotGet, h]
    · simp only [annotGet] at ih
      simp [annotSet, annotGet, h, ih]

theorem annotGet_annotSet_other (m : Annotations) (k v k2 : String)
    (h : k2 ≠ k) : annotGet (annotSet m k v) k2 = annotGet m k2 := by
  have hk : ¬(k = k2) := fun hkk => h hkk.symm
  induction m with
  | nil => simp [annotSet, annotGet, hk]
  | cons p rest ih =>
    by_cases hp : p.1 = k
    · simp [annotSet, annotGet, hp, hk]
    · by_cases hp2 : p.1 = k2
      · simp [annotSet, annotGet, hp, hp2, h]
      · simp only [annotGet] at ih
        simp [annotSet, annotGet, hp, hp2, ih]

theorem splitOnSep_not_mem {sep : Char} {l : List Char} (h : sep ∉ l) :
    splitOnSep sep l = [l] := by
  induction l with
  | nil => rfl
  | cons c cs ih =>
    have hc : c ≠ sep := fun hcs => h (hcs ▸ List.mem_cons_self c cs)
    have hcs : sep ∉ cs := fun hm => h (List.mem_cons_of_mem c hm)
    simp [splitOnSep, hc, ih hcs]

theorem splitOnSep_append {sep : Char} {a : List Char} (rest : List Char)
    (h : sep ∉ a) :
    splitOnSep sep (a ++ sep :: rest) = a :: splitOnSep sep rest := by
  induction a with
  | nil => simp [splitOnSep]
  | cons c cs ih =>
    have hc : c ≠ sep := fun hcs => h (hcs ▸ List.mem_cons_self c cs)
    have hcs : sep ∉ cs := fun hm => h (List.mem_cons_of_mem c hm)
    simp [splitOnSep, hc, ih hcs]

theorem traceError_fst (err : Option ε) : (traceError err).1 = err := by
  cases err <;> rfl

theorem noSpanCtl_append {l1 l2 : List (TraceAction ε)}
    (h1 : noSpanCtl l1) (h2 : noSpanCtl l2) : noSpanCtl (l1 ++ l2) := by
  intro a ha
  rcases List.mem_append.mp ha with h | h
  · exact h1 a h
  · exact h2 a h

theorem noSpanCtl_setObjectTags (obj : Obj) :
    noSpanCtl (setObjectTags obj : List (TraceAction ε)) := by
  intro a ha
  unfold setObjectTags at ha
  rcases List.mem_append.mp ha with h | h
  · split at h <;> simp at h
    subst h; exact ⟨rfl, rfl⟩
  · cases hm : obj.objMeta with
    | none => simp [hm] at h
    | some nn =>
      simp [hm] at h
      subst h; exact ⟨rfl, rfl⟩

theorem noSpanCtl_setBlankObjectTags (scheme : Option KindResolver)
    (obj : Obj) : noSpanCtl (setBlankObjectTags scheme obj : List (TraceAction ε)) := by
  intro a ha
  cases scheme with
  | none => simp [setBlankObjectTags] at ha
  | some r =>
    simp [setBlankObjectTags] at ha
    obtain ⟨gvk, _, hg⟩ := ha
    subst hg; exact ⟨rfl, rfl⟩

theorem noSpanCtl_patchLogActions (obj : Obj) (p : PatchSpec) :
    noSpanCtl (patchLogActions obj p : List (TraceAction ε)) := by
  intro a ha
  unfold patchLogActions at ha
  cases hp : p obj with
  | none => simp [hp] at ha
  | some d =>
    simp [hp] at ha
    subst ha; exact ⟨rfl, rfl⟩

theorem noSpanCtl_traceError (err : Option ε) :
    noSpanCtl (traceError err).2 := by
  intro a ha
  cases err with
  | none => simp [traceError] at ha
  | some e =>
    simp [traceError] at ha
    rcases ha with h | h <;> subst h
    · exact ⟨rfl, rfl⟩
    · exact ⟨rfl, rfl⟩

theorem spanDiscipline_shape (n : String) (tg : List (String × String))
    (mid : List (TraceAction ε)) (hm : noSpanCtl mid) :
    spanDiscipline (.startSpan n tg :: (mid ++ [.finishSpan])) := by
  have hs : mid.countP isStart = 0 :=
    List.countP_eq_zero.mpr fun a ha => by simp [(hm a ha).1]
  have hf : mid.countP isFinish = 0 :=
    List.countP_eq_zero.mpr fun a ha => by simp [(hm a ha).2]
  refine ⟨?_, ?_, ?_⟩
  · simp [List.countP_cons, List.countP_append, hs, isStart]
  · simp [List.countP_cons, List.countP_append, hf, isFinish]
  · rw [← List.cons_append]
    exact List.getLast?_concat _

theorem foldl_applyAction_tags (acts : List (TraceAction ε)) (s : Span ε) :
    (acts.foldl applyAction s).tags = s.tags ++ collectTags acts := by
  induction acts generalizing s with
  | nil => simp [collectTags]
  | cons a rest ih =>
    cases a <;> simp [applyAction, collectTags, ih, List.append_assoc]

theorem foldl_applyAction_errorFlag (acts : List (TraceAction ε)) (s : Span ε) :
    (acts.foldl applyAction s).errorFlag = (s.errorFlag || anySetError acts) := by
  induction acts generalizing s with
  | nil => simp [anySetError]
  | cons a rest ih =>
    cases a <;> simp [applyAction, anySetError, ih, Bool.or_assoc]

theorem collectTags_append (l1 l2 : List (TraceAction ε)) :
    collectTags (l1 ++ l2) = collectTags l1 ++ collectTags l2 := by
  induction l1 with
  | nil => simp [collectTags]
  | cons a rest ih => cases a <;> simp [collectTags, ih]

theorem collectTags_traceError (err : Option ε) :
    collectTags (traceError err).2 = [] := by
  cases err <;> rfl

theorem collectTags_patchLogActions (obj : Obj) (p : PatchSpec) :
    collectTags (patchLogActions obj p : List (TraceAction ε)) = [] := by
  unfold patchLogActions
  cases p obj <;> rfl

theorem collectTags_map_setTag (l : List GroupVersionKind) (k : String)
    (f : GroupVersionKind → String) :
    collectTags ((l.map fun gvk => TraceAction.setTag k (f gvk)) :
      List (TraceAction ε)) = l.map fun gvk => (k, f gvk) := by
  induction l with
  | nil => rfl
  | cons g rest ih => simp [collectTags, ih]

theorem collectTags_setBlankObjectTags (scheme : Option KindResolver)
    (obj : Obj) :
    collectTags (setBlankObjectTags scheme obj : List (TraceAction ε)) =
      (registryKinds scheme obj).map fun gvk => ("objectKind", gvk.toStr) := by
  cases scheme with
  | none => rfl
  | some r => exact collectTags_map_setTag _ _ _

theorem anySetError_map_setTag (l : List GroupVersionKind) (k : String)
    (f : GroupVersionKind → String) :
    anySetError ((l.map fun gvk => TraceAction.setTag k (f gvk)) :
      List (TraceAction ε)) = false := by
  induction l with
  | nil => rfl
  | cons g rest ih => simp [anySetError]

theorem anySetError_nil : anySetError ([] : List (TraceAction ε)) = false := rfl

theorem anySetError_append (l1 l2 : List (TraceAction ε)) :
    anySetError (l1 ++ l2) = (anySetError l1 || anySetError l2) := by
  simp [anySetError, List.any_append]

theorem anySetError_setBlankObjectTags (scheme : Option KindResolver)
    (obj : Obj) :
    anySetError (setBlankObjectTags scheme obj : List (TraceAction ε)) = false := by
  cases scheme with
  | none => rfl
  | some r => exact anySetError_map_setTag _ _ _

theorem spanOf_start (n : String) (tg : List (String × String))
    (rest : List (TraceAction ε)) :
    spanOf (.startSpan n tg :: rest) =
      rest.foldl applyAction ⟨n, tg, false, [], false⟩ := rfl

/-! ## Claims -/

/-- C1: for every operation of the instrumented client and every delegate
outcome, the value/error handed back to the caller is exactly what the
wrapped delegate returned — the decorator never replaces, wraps or
swallows the delegate's result. -/
theorem tracing_client_transparent (c : TracingClient ε) (key : ObjectKey)
    (obj lobj cobj dobj uobj pobj daobj suobj spobj : Obj)
    (p q : PatchSpec) :
    (c.get key obj).1 = c.getDelegate key obj ∧
    (c.list lobj).1 = c.listDelegate lobj ∧
    (c.create cobj).1 = c.createDelegate cobj ∧
    (c.update uobj).1 = c.updateDelegate uobj ∧
    (c.patch pobj p).1 = c.patchDelegate pobj p ∧
    (c.delete dobj).1 = c.deleteDelegate dobj ∧
    (c.deleteAllOf daobj).1 = c.deleteAllOfDelegate daobj ∧
    (c.status.update suobj).1 = c.statusDelegate.update suobj ∧
    (c.status.patch spobj q).1 = c.statusDelegate.patch spobj q := by
  refine ⟨?_, ?_, ?_, ?_, ?_, ?_, ?_, ?_, ?_⟩ <;>
    simp [TracingClient.get, TracingClient.list, TracingClient.create,
      TracingClient.update, TracingClient.patch, TracingClient.delete,
      TracingClient.deleteAllOf, TracingClient.status,
      TracingStatusWriter.update, TracingStatusWriter.patch, traceError_fst]

/-- C2: every operation of the instrumented client starts exactly one
span and finishes exactly one span, on every outcome, and the finish is
the last tracer call before the operation returns. -/
theorem one_span_per_operation (c : TracingClient ε) (key : ObjectKey)
    (obj lobj cobj dobj uobj pobj daobj suobj spobj : Obj)
    (p q : PatchSpec) :
    spanDiscipline (c.get key obj).2 ∧
    spanDiscipline (c.list lobj).2 ∧
    spanDiscipline (c.create cobj).2 ∧
    spanDiscipline (c.update uobj).2 ∧
    spanDiscipline (c.patch pobj p).2 ∧
    spanDiscipline (c.delete dobj).2 ∧
    spanDiscipline (c.deleteAllOf daobj).2 ∧
    spanDiscipline (c.status.update suobj).2 ∧
    spanDiscipline (c.status.patch spobj q).2 := by
  refine ⟨?_, ?_, ?_, ?_, ?_, ?_, ?_, ?_, ?_⟩
  · exact spanDiscipline_shape _ _ _
      (noSpanCtl_append (noSpanCtl_setBlankObjectTags _ _)
        (noSpanCtl_traceError _))
  · exact spanDiscipline_shape _ _ _
      (noSpanCtl_append (noSpanCtl_setBlankObjectTags _ _)
        (noSpanCtl_traceError _))
  · exact spanDiscipline_shape _ _ _
      (noSpanCtl_append (noSpanCtl_setObjectTags _) (noSpanCtl_traceError _))
  · exact spanDiscipline_shape _ _ _
      (noSpanCtl_append (noSpanCtl_setObjectTags _) (noSpanCtl_traceError _))
  · exact spanDiscipline_shape _ _ _
      (noSpanCtl_append
        (noSpanCtl_append (noSpanCtl_setObjectTags _)
          (noSpanCtl_patchLogActions _ _))
        (noSpanCtl_traceError _))
  · exact spanDiscipline_shape _ _ _
      (noSpanCtl_append (noSpanCtl_setObjectTags _) (noSpanCtl_traceError _))
  · exact spanDiscipline_shape _ _ _
      (noSpanCtl_append (noSpanCtl_setBlankObjectTags _ _)
        (noSpanCtl_traceError _))
  · exact spanDiscipline_shape _ _ _
      (noSpanCtl_append (noSpanCtl_setObjectTags _) (noSpanCtl_traceError _))
  · exact spanDiscipline_shape _ _ _
      (noSpanCtl_append
        (noSpanCtl_append (noSpanCtl_setObjectTags _)
          (noSpanCtl_patchLogActions _ _))
        (noSpanCtl_traceError _))

/-- C3: decoding the string produced by encoding a valid trace context
yields that context back — decode is the exact inverse of encode on
encode's range. -/
theorem decode_encode (c : TraceContext) (h : c.wellFormed) :
    TraceContext.decode c.encode = some c := by
  obtain ⟨⟨td⟩, ⟨sd⟩, b⟩ := c
  obtain ⟨ht, hs⟩ := h
  unfold TraceContext.encode TraceContext.decode
  simp only at ht hs ⊢
  rw [List.append_assoc, List.cons_append]
  rw [splitOnSep_append _ ht, splitOnSep_append _ hs,
    splitOnSep_not_mem (by cases b <;> simp)]
  cases b <;> simp

/-- Witness for C3 at a concrete trace context. -/
theorem decode_encode_witness :
    (⟨"abc12", "def34", true⟩ : TraceContext).wellFormed ∧
      TraceContext.decode
        (TraceContext.encode ⟨"abc12", "def34", true⟩) =
        some ⟨"abc12", "def34", true⟩ :=
  ⟨by decide, decode_encode ⟨"abc12", "def34", true⟩ (by decide)⟩

/-- C4: on successful encoding, stampAll sets the reserved key on every
object to the same encoded string, leaves every other annotation of each
object untouched, and turns an uninitialized annotation mapping into one
holding exactly the reserved key. -/
theorem add_trace_stamps_all (objs : List Unstructured) (span : ActiveSpan)
    (s : String) (h : GenerateEmbeddableSpanContext span = .ok s) :
    ∃ objs2, AddTraceAnnotation objs span = .ok objs2 ∧
      objs2.length = objs.length ∧
      ∀ i (hi : i < objs.length) (hi2 : i < objs2.length),
        (objs2.get ⟨i, hi2⟩).annotLookup TraceAnnotationKey = some s ∧
        (∀ k, k ≠ TraceAnnotationKey →
          (objs2.get ⟨i, hi2⟩).annotLookup k =
            (objs.get ⟨i, hi⟩).annotLookup k) ∧
        ((objs.get ⟨i, hi⟩).annotations = none →
          (objs2.get ⟨i, hi2⟩).annotations = some [(TraceAnnotationKey, s)]) := by
  refine ⟨_, by unfold AddTraceAnnotation; rw [h], by simp, ?_⟩
  intro i hi hi2
  simp only [List.get_eq_getElem, List.getElem_map]
  refine ⟨?_, ?_, ?_⟩
  · cases ho : (objs.get ⟨i, hi⟩).annotations with
    | none =>
      simp [List.get_eq_getElem] at ho
      simp [Unstructured.GetAnnotations, Unstructured.SetAnnotations,
        Unstructured.annotLookup, ho, annotGet_annotSet_self]
    | some a =>
      simp [List.get_eq_getElem] at ho
      simp [Unstructured.GetAnnotations, Unstructured.SetAnnotations,
        Unstructured.annotLookup, ho, annotGet_annotSet_self]
  · intro k hk
    cases ho : (objs.get ⟨i, hi⟩).annotations with
    | none =>
      simp [List.get_eq_getElem] at ho
      simp [Unstructured.GetAnnotations, Unstructured.SetAnnotations,
        Unstructured.annotLookup, ho, annotGet_annotSet_other _ _ _ _ hk,
        annotGet, annotSet, Ne.symm hk]
    | some a =>
      simp [List.get_eq_getElem] at ho
      simp [Unstructured.GetAnnotations, Unstructured.SetAnnotations,
        Unstructured.annotLookup, ho, annotGet_annotSet_other _ _ _ _ hk]
  · intro ho
    simp [Unstructured.GetAnnotations, Unstructured.SetAnnotations,
      Unstructured.annotLookup, ho, annotSet]

/-- Witness for C4: two objects, one with a pre-existing annotation and
one with an uninitialized mapping. -/
theorem add_trace_stamps_all_witness :
    GenerateEmbeddableSpanContext ⟨some ⟨"t1", "s1", true⟩⟩ = .ok "t1:s1:1" ∧
    (∃ objs2,
      AddTraceAnnotation [⟨some [("x", "y")]⟩, ⟨none⟩]
          ⟨some ⟨"t1", "s1", true⟩⟩ = .ok objs2 ∧
      objs2.length = [(⟨some [("x", "y")]⟩ : Unstructured), ⟨none⟩].length ∧
      ∀ i (hi : i < [(⟨some [("x", "y")]⟩ : Unstructured), ⟨none⟩].length)
        (hi2 : i < objs2.length),
        (objs2.get ⟨i, hi2⟩).annotLookup TraceAnnotationKey =
          some "t1:s1:1" ∧
        (∀ k, k ≠ TraceAnnotationKey →
          (objs2.get ⟨i, hi2⟩).annotLookup k =
            ([(⟨some [("x", "y")]⟩ : Unstructured), ⟨none⟩].get
              ⟨i, hi⟩).annotLookup k) ∧
        (([(⟨some [("x", "y")]⟩ : Unstructured), ⟨none⟩].get
            ⟨i, hi⟩).annotations = none →
          (objs2.get ⟨i, hi2⟩).annotations =
            some [(TraceAnnotationKey, "t1:s1:1")])) :=
  ⟨by rfl, add_trace_stamps_all _ _ _ (by rfl)⟩

/-- C5: when encoding the span's context fails, stampAll returns that
encode error unchanged, and no stamped object sequence is produced. -/
theorem add_trace_encode_error (objs : List Unstructured) (span : ActiveSpan)
    (e : String) (h : GenerateEmbeddableSpanContext span = .error e) :
    AddTraceAnnotation objs span = .error e := by
  unfold AddTraceAnnotation
  rw [h]

/-- Witness for C5 at a span with no serializable context. -/
theorem add_trace_encode_error_witness :
    GenerateEmbeddableSpanContext ⟨none⟩ =
      .error "cannot serialize span context" ∧
    AddTraceAnnotation [⟨some [("x", "y")]⟩] ⟨none⟩ =
      .error "cannot serialize span context" :=
  ⟨by rfl, add_trace_encode_error _ _ _ (by rfl)⟩

/-- C6: when the registry yields zero candidate kinds for an object, the
registry-driven operations (get, list, delete-all-of-kind) still return
the delegate's result, and their spans carry no kind tag. -/
theorem kind_resolution_failure_harmless (c : TracingClient ε)
    (key : ObjectKey) (obj lobj daobj : Obj)
    (hg : registryKinds c.scheme obj = [])
    (hl : registryKinds c.scheme lobj = [])
    (hd : registryKinds c.scheme daobj = []) :
    ((c.get key obj).1 = c.getDelegate key obj ∧
      (spanOf (c.get key obj).2).hasTagKey "objectKind" = false) ∧
    ((c.list lobj).1 = c.listDelegate lobj ∧
      (spanOf (c.list lobj).2).hasTagKey "objectKind" = false) ∧
    ((c.deleteAllOf daobj).1 = c.deleteAllOfDelegate daobj ∧
      (spanOf (c.deleteAllOf daobj).2).hasTagKey "objectKind" = false) := by
  refine ⟨⟨?_, ?_⟩, ⟨?_, ?_⟩, ⟨?_, ?_⟩⟩
  · simp [TracingClient.get, traceError_fst]
  · simp [TracingClient.get, spanOf_start, applyAction, foldl_applyAction_tags,
      Span.hasTagKey, collectTags_append, collectTags_traceError,
      collectTags_setBlankObjectTags, hg, collectTags]
  · simp [TracingClient.list, traceError_fst]
  · simp [TracingClient.list, spanOf_start, applyAction, foldl_applyAction_tags,
      Span.hasTagKey, collectTags_append, collectTags_traceError,
      collectTags_setBlankObjectTags, hl, collectTags]
  · simp [TracingClient.deleteAllOf, traceError_fst]
  · simp [TracingClient.deleteAllOf, spanOf_start, applyAction, foldl_applyAction_tags,
      Span.hasTagKey, collectTags_append, collectTags_traceError,
      collectTags_setBlankObjectTags, hd, collectTags]

/-- Witness for C6: a decorator with no scheme resolves zero kinds. -/
theorem kind_resolution_failure_harmless_witness :
    registryKinds sampleClient.scheme sampleObj = [] ∧
    (((sampleClient.get ⟨"ns1", "name1"⟩ sampleObj).1 =
        sampleClient.getDelegate ⟨"ns1", "name1"⟩ sampleObj ∧
      (spanOf (sampleClient.get ⟨"ns1", "name1"⟩ sampleObj).2).hasTagKey
        "objectKind" = false) ∧
     ((sampleClient.list sampleObj).1 = sampleClient.listDelegate sampleObj ∧
      (spanOf (sampleClient.list sampleObj).2).hasTagKey
        "objectKind" = false) ∧
     ((sampleClient.deleteAllOf sampleObj).1 =
        sampleClient.deleteAllOfDelegate sampleObj ∧
      (spanOf (sampleClient.deleteAllOf sampleObj).2).hasTagKey
        "objectKind" = false)) :=
  ⟨rfl, kind_resolution_failure_harmless _ _ _ _ _ rfl rfl rfl⟩

/-- C7: when the registry yields one or more candidate kinds for an
object whose kind is not statically known, the span of each
registry-driven operation is tagged with each candidate kind. -/
theorem registry_kinds_all_tagged (c : TracingClient ε) (key : ObjectKey)
    (obj : Obj) (gvk : GroupVersionKind)
    (h : gvk ∈ registryKinds c.scheme obj) :
    ("objectKind", gvk.toStr) ∈ (spanOf (c.get key obj).2).tags ∧
    ("objectKind", gvk.toStr) ∈ (spanOf (c.list obj).2).tags ∧
    ("objectKind", gvk.toStr) ∈ (spanOf (c.deleteAllOf obj).2).tags := by
  refine ⟨?_, ?_, ?_⟩ <;>
    simp [TracingClient.get, TracingClient.list, TracingClient.deleteAllOf,
      spanOf_start, applyAction, foldl_applyAction_tags, collectTags_append,
      collectTags_traceError, collectTags_setBlankObjectTags,
      collectTags] <;>
    exact ⟨gvk, h, rfl⟩

/-- Witness for C7: the two-kind resolver tags the second candidate. -/
theorem registry_kinds_all_tagged_witness :
    (⟨"g2", "v2", "K2"⟩ : GroupVersionKind) ∈
      registryKinds sampleClientWithScheme.scheme sampleObj ∧
    (("objectKind", GroupVersionKind.toStr ⟨"g2", "v2", "K2"⟩) ∈
      (spanOf (sampleClientWithScheme.get ⟨"ns1", "name1"⟩ sampleObj).2).tags ∧
     ("objectKind", GroupVersionKind.toStr ⟨"g2", "v2", "K2"⟩) ∈
      (spanOf (sampleClientWithScheme.list sampleObj).2).tags ∧
     ("objectKind", GroupVersionKind.toStr ⟨"g2", "v2", "K2"⟩) ∈
      (spanOf (sampleClientWithScheme.deleteAllOf sampleObj).2).tags) :=
  ⟨by decide, registry_kinds_all_tagged _ _ _ _ (by decide)⟩

/-- C8 counterexample: a concrete delete-all-of-kind invocation whose
span carries no objectKey tag at all — contrary to the claim, DeleteAllOf
receives no pre-identified lookup key and its span is not tagged with
one. -/
theorem deleteAllOf_span_lacks_object_key :
    (spanOf (sampleClientWithScheme.deleteAllOf sampleObj).2).hasTagKey
      "objectKey" = false := by
  decide

/-- C8 (amended): get — the one operation that receives a pre-identified
lookup key — tags its span with that key's string form on every delegate
outcome and with any scheme, while DeleteAllOf receives no lookup key
and its span never carries an objectKey tag; Get against a succeeding
delegate additionally leaves the error flag clear and returns the
delegate's object unchanged. -/
theorem get_tags_lookup_key (c : TracingClient ε) (key : ObjectKey)
    (obj daobj : Obj) :
    ("objectKey", key.toStr) ∈ (spanOf (c.get key obj).2).tags ∧
    (spanOf (c.deleteAllOf daobj).2).hasTagKey "objectKey" = false ∧
    (c.get key obj).1 = c.getDelegate key obj ∧
    ((c.getDelegate key obj).2 = none →
      (spanOf (c.get key obj).2).errorFlag = false) := by
  refine ⟨?_, ?_, ?_, ?_⟩
  · simp [TracingClient.get, spanOf_start, applyAction, foldl_applyAction_tags,
      collectTags_append, collectTags_traceError,
      collectTags_setBlankObjectTags, collectTags]
  · simp [TracingClient.deleteAllOf, spanOf_start, applyAction, foldl_applyAction_tags,
      Span.hasTagKey, collectTags_append, collectTags_traceError,
      collectTags_setBlankObjectTags, collectTags, List.any_map,
      Function.comp]
  · simp [TracingClient.get, traceError_fst]
  · intro hsucc
    simp [TracingClient.get, spanOf_start, applyAction, foldl_applyAction_errorFlag,
      anySetError_append, anySetError_nil, anySetError_setBlankObjectTags,
      hsucc, traceError]

/-- Witness for C8's amended statement at the spec's Get scenario, on the
scheme-bearing sample client. -/
theorem get_tags_lookup_key_witness :
    ("objectKey", "ns1/name1") ∈
      (spanOf (sampleClientWithScheme.get ⟨"ns1", "name1"⟩ sampleObj).2).tags ∧
    (spanOf (sampleClientWithScheme.deleteAllOf sampleObj).2).hasTagKey
      "objectKey" = false ∧
    (sampleClientWithScheme.get ⟨"ns1", "name1"⟩ sampleObj).1 =
      sampleClientWithScheme.getDelegate ⟨"ns1", "name1"⟩ sampleObj ∧
    ((sampleClientWithScheme.getDelegate ⟨"ns1", "name1"⟩ sampleObj).2 =
        none →
      (spanOf (sampleClientWithScheme.get ⟨"ns1", "name1"⟩ sampleObj).2).errorFlag
        = false) :=
  get_tags_lookup_key sampleClientWithScheme ⟨"ns1", "name1"⟩ sampleObj
    sampleObj

/-- C9: with an empty destination descriptor the move entry point fails
immediately with the missing-destination error and never constructs the
delegate client; with a destination present it constructs the client
and returns success or the propagated failure. -/
theorem runMove_requires_destination {γ : Type} (mo : MoveOptions)
    (clientNew : Except String γ) (moveFn : γ → Option String) :
    (mo.toKubeconfig = "" →
      runMove mo clientNew moveFn = (some moveMissingDestinationMsg, [])) ∧
    (mo.toKubeconfig ≠ "" →
      MoveEvent.constructClient ∈ (runMove mo clientNew moveFn).2 ∧
      (runMove mo clientNew moveFn).1 =
        match clientNew with
        | .error e => some e
        | .ok c => moveFn c) := by
  constructor
  · intro h
    simp [runMove, h]
  · intro h
    cases clientNew with
    | error e => simp [runMove, h]
    | ok c =>
      cases hm : moveFn c with
      | none => simp [runMove, h, hm]
      | some e => simp [runMove, h, hm]

/-- Witness for C9: the empty-destination and present-destination cases
at concrete inputs. -/
theorem runMove_requires_destination_witness :
    runMove ⟨"", "", ""⟩ (Except.ok ()) (fun _ => none) =
      (some moveMissingDestinationMsg, []) ∧
    (MoveEvent.constructClient ∈
      (runMove ⟨"", "", "dest.yaml"⟩ (Except.ok ()) (fun _ => none)).2 ∧
     (runMove ⟨"", "", "dest.yaml"⟩ (Except.ok ()) (fun _ => none)).1 =
       none) :=
  ⟨(runMove_requires_destination ⟨"", "", ""⟩ (Except.ok ())
      (fun _ => none)).1 rfl,
   (runMove_requires_destination ⟨"", "", "dest.yaml"⟩ (Except.ok ())
      (fun _ => none)).2 (by decide)⟩

/-- C10: a failing underlying constructor makes both NewRuntimeClient and
the function WrapRuntimeClient produces return that error unchanged with
no client value; the tracing decorator is only ever layered over a
successfully constructed delegate. -/
theorem constructor_error_passthrough {κ σ ρ χ ε : Type} (cache : σ)
    (config : χ) (options : ClientOptions ρ) (clientNew : Except ε κ)
    (upstreamNew : σ → χ → ClientOptions ρ → Except ε (ClientShape κ σ ρ)) :
    (∀ e, clientNew = .error e →
      NewRuntimeClient cache clientNew options = .error e) ∧
    (∀ e, upstreamNew cache config options = .error e →
      WrapRuntimeClient upstreamNew cache config options = .error e) ∧
    (∀ c, clientNew = .ok c →
      NewRuntimeClient cache clientNew options =
        .ok (.tracingClient
          (.delegatingClient (.delegatingReader cache (.base c)) (.base c)
            (.base c)) options.scheme)) ∧
    (∀ d, upstreamNew cache config options = .ok d →
      WrapRuntimeClient upstreamNew cache config options =
        .ok (.tracingClient d options.scheme)) := by
  refine ⟨?_, ?_, ?_, ?_⟩
  · intro e h
    simp [NewRuntimeClient, h]
  · intro e h
    simp [WrapRuntimeClient, h]
  · intro c h
    simp [NewRuntimeClient, h]
  · intro d h
    simp [WrapRuntimeClient, h]

/-- Witness for C10 at concrete instantiations of both constructors. -/
theorem constructor_error_passthrough_witness :
    NewRuntimeClient (0 : Nat) (Except.error "boom" : Except String Unit)
      (⟨none⟩ : ClientOptions Unit) = .error "boom" ∧
    WrapRuntimeClient
      (fun _ _ _ =>
        (Except.error "boom" : Except String (ClientShape Unit Nat Unit)))
      (0 : Nat) (0 : Nat) (⟨none⟩ : ClientOptions Unit) = .error "boom" :=
  ⟨(constructor_error_passthrough (0 : Nat) (0 : Nat) ⟨none⟩
      (Except.error "boom")
      (fun _ _ _ =>
        (Except.error "boom" : Except String (ClientShape Unit Nat Unit)))).1
      "boom" rfl,
   (constructor_error_passthrough (0 : Nat) (0 : Nat) ⟨none⟩
      (Except.error "boom" : Except String Unit)
      (fun _ _ _ =>
        (Except.error "boom" : Except String (ClientShape Unit Nat Unit)))).2.1
      "boom" rfl⟩

end ClusterApiTracing
